import Mathlib

/-!
Verification development for the goes_viewer satellite image pipeline.

The pipeline (goes_viewer/process_files.py) opens a GOES scene, clips it to a
bounding box, composites a GeoColor RGB image, resamples it onto a Web Mercator
grid and writes it as a PNG whose name encodes platform and timestamp.
goes_viewer/write_metadata.py filters and projects site metadata.

Rasters are modelled as flattened lists of exact rationals; all numpy
operations used by the code are elementwise, so this preserves the pixel
arithmetic exactly.  External library functions with data dependent behaviour
(np.power, pyproj.transform, pyresample bilinear sampling) are abstracted as
explicit function parameters; library functions with fixed semantics
(np.clip, np.maximum, np.ma.fix_invalid, set.add, reductions over empty
arrays, datetime UTC formatting) are modelled directly.  Constants from
goes_viewer/constants.py, which is not among the sources, are modelled from
the specification where needed and marked as such.
-/

namespace GoesViewer

/-- Model of np.clip with scalar bounds: np.clip(x, lo, hi) computes
min(hi, max(lo, x)). -/
def npClip (lo hi x : ℚ) : ℚ := min hi (max lo x)

/-- Elementwise combination of three equally shaped rasters, the list form of a
ternary numpy broadcast expression. -/
def zipWith3 (f : ℚ → ℚ → ℚ → ℚ) : List ℚ → List ℚ → List ℚ → List ℚ
  | a :: l₁, b :: l₂, c :: l₃ => f a b c :: zipWith3 f l₁ l₂ l₃
  | _, _, _ => []

/-- Modelled from the spec: the CONTRAST constant is defined in
goes_viewer/constants.py, which is not among the sources; the specification
gives its default value 105. -/
def CONTRAST : ℚ := 105

/-- Elementwise clip of a channel to the unit interval, np.clip(ch, 0, 1). -/
def clip01 (ch : List ℚ) : List ℚ := ch.map (npClip 0 1)

/-- The synthesized true colour green channel of make_geocolor_image,
lines 66 to 67: G = np.clip(0.45 R + 0.1 NIR + 0.45 B, 0, 1), applied to the
already clipped channels. -/
def synthGreen (R NIR B : List ℚ) : List ℚ :=
  clip01 (zipWith3 (fun r n b => 45 / 100 * r + 1 / 10 * n + 45 / 100 * b) R NIR B)

/-- The clean IR overlay of make_geocolor_image, lines 75 to 84: normalise the
thermal channel against its valid range, clip to the unit interval, invert, and
scale down by 1.3. -/
def normalizeIR (lo hi : ℚ) (ch : List ℚ) : List ℚ :=
  ((clip01 (ch.map (fun x => (x - lo) / (hi - lo)))).map (fun x => 1 - x)).map
    (fun x => x / (13 / 10))

/-- The contrast factor exactly as line 91 of the source computes it:
F = (259 * (CONTRAST + 255)) / (255.0 * 259 - CONTRAST).  Note the denominator
is 255 * 259 - CONTRAST, not 255 * (259 - CONTRAST). -/
def contrastF : ℚ := (259 * (CONTRAST + 255)) / (255 * 259 - CONTRAST)

/-- The final contrast stretch of make_geocolor_image, lines 92 to 93:
out = np.clip(F * (x - 0.5) + 0.5, 0, 1), applied elementwise. -/
def contrastStretch (x : ℚ) : ℚ := npClip 0 1 (contrastF * (x - 1 / 2) + 1 / 2)

/-- Modelled from the spec: the contrast factor as the specification states it,
F = 259 * (contrast + 255) / (255 * (259 - contrast)), at the configured
contrast constant.  Kept separate so it can be compared with contrastF. -/
def specContrastF : ℚ := (259 * (CONTRAST + 255)) / (255 * (259 - CONTRAST))

/-- Modelled from the spec: the contrast stretch using the factor the
specification states. -/
def specContrastStretch (x : ℚ) : ℚ := npClip 0 1 (specContrastF * (x - 1 / 2) + 1 / 2)

/-- The channels of a Scene subset consumed by make_geocolor_image: the three
reflectance channels CMI_C01, CMI_C02, CMI_C03, the thermal channel CMI_C13 and
the documented valid range of the latter. -/
structure GeoDS where
  c01 : List ℚ
  c02 : List ℚ
  c03 : List ℚ
  c13 : List ℚ
  irLo : ℚ
  irHi : ℚ
  deriving DecidableEq

/-- A composite image: one flattened plane per colour channel. -/
structure RGB where
  r : List ℚ
  g : List ℚ
  b : List ℚ
  deriving DecidableEq

/-- make_geocolor_image, process_files.py lines 54 to 94.  powGamma abstracts
the gamma correction np.power(x, 1 / 1.7), whose exact real value is irrelevant
to every claim below; all claims hold for every instantiation. -/
def make_geocolor_image (powGamma : ℚ → ℚ) (ds : GeoDS) : RGB :=
  let R := clip01 ds.c02
  let NIR := clip01 ds.c03
  let B := clip01 ds.c01
  let G := synthGreen R NIR B
  let Rg := R.map powGamma
  let Gg := G.map powGamma
  let Bg := B.map powGamma
  let cleanIR := normalizeIR ds.irLo ds.irHi ds.c13
  { r := (Rg.zipWith max cleanIR).map contrastStretch,
    g := (Gg.zipWith max cleanIR).map contrastStretch,
    b := (Bg.zipWith max cleanIR).map contrastStretch }

/-- Python exception classes relevant to the pipeline.  DataError is the class
the specification postulates; it does not occur anywhere in the sources. -/
inductive PyError
  | dataError
  | valueError
  | typeError
  deriving DecidableEq

/-- Model of np.nonzero over a boolean mask: the list of indices at which the
mask is true, in increasing order. -/
def nonzeroIdx (mask : List Bool) : List ℕ :=
  (List.range mask.length).filter (fun i => mask.getD i false)

/-- Model of xarray isel along one axis: select the coordinate values at the
given indices. -/
def iselIdx (coord : List ℚ) (idx : List ℕ) : List ℚ :=
  idx.filterMap (fun i => coord.get? i)

/-- The boolean range subsetting of open_file, lines 49 to 51: keep the indices
whose coordinate lies between the minimum and maximum of the transformed corner
coordinates, on each axis; no error path exists.  bndx and bndy are the
transformed corner coordinate lists; the pipeline always passes two corners, so
the default 0 taken by min and max on an empty list is never exercised. -/
def open_file_subset (xs ys bndx bndy : List ℚ) : List ℚ × List ℚ :=
  let xarg := nonzeroIdx (xs.map (fun v =>
    decide (bndx.min?.getD 0 ≤ v) && decide (v ≤ bndx.max?.getD 0)))
  let yarg := nonzeroIdx (ys.map (fun v =>
    decide (bndy.min?.getD 0 ≤ v) && decide (v ≤ bndy.max?.getD 0)))
  (iselIdx xs xarg, iselIdx ys yarg)

/-- The area_extent computation of make_resample_params, lines 106 to 111:
ds.x.min().item(), ds.y.min().item(), ds.x.max().item(), ds.y.max().item().
A numpy reduction over a zero size axis raises ValueError, modelled by the
error branch. -/
def make_resample_area_extent (xs ys : List ℚ) : Except PyError (ℚ × ℚ × ℚ × ℚ) :=
  match xs.min?, ys.min?, xs.max?, ys.max? with
  | some xlo, some ylo, some xhi, some yhi => Except.ok (xlo, ylo, xhi, yhi)
  | _, _, _, _ => Except.error PyError.valueError

/-- The spatial part of the per scene pipeline of process_s3_file: subset the
coordinates as open_file does, then build the resample source extent as
make_resample_params does.  The elementwise colour compositing that runs
between the two steps cannot fail and does not touch the coordinates, and the
image is saved only after make_resample_params has returned. -/
def process_scene_subset (xs ys bndx bndy : List ℚ) : Except PyError (ℚ × ℚ × ℚ × ℚ) :=
  make_resample_area_extent (open_file_subset xs ys bndx bndy).1
    (open_file_subset xs ys bndx bndy).2

/-- Model of np.ma.fix_invalid(x).filled(0) at one cell: an invalid cell
becomes 0, a valid cell keeps its value. -/
def fixInvalidFilled0 : Option ℚ → ℚ
  | none => 0
  | some v => v

/-- Truncation toward zero, the behaviour of a float to integer cast. -/
def truncToward0 (q : ℚ) : Int := if 0 ≤ q then ⌊q⌋ else -⌊-q⌋

/-- Model of astype uint8 applied after the 255 rescale: truncate toward zero
and wrap modulo 256. -/
def uint8OfRat (q : ℚ) : ℕ := (truncToward0 q % 256).toNat

/-- One output cell of resample_image: replace an invalid interpolation result
with 0, rescale by 255 and cast to uint8. -/
def encodeCell (o : Option ℚ) : ℕ := uint8OfRat (fixInvalidFilled0 o * 255)

/-- The four uint8 planes of an output frame. -/
structure RGBA4 where
  r : List ℕ
  g : List ℕ
  b : List ℕ
  a : List ℕ
  deriving DecidableEq

/-- resample_image, process_files.py lines 134 to 144.  sampler abstracts
pyresample get_sample_from_bil_info with the resample parameters fixed: it maps
a flattened channel to one value per target cell, none standing for an invalid
result (no source neighbour within the search radius contributed, which
pyresample reports as NaN).  The source stacks the three resampled channels
with np.ones(shape) as fourth plane, then applies fix_invalid, filled(0), the
255 rescale and the uint8 cast to the whole stack; these are elementwise, so
they are applied per plane here.  The ones plane contains no invalid value. -/
def resample_image (sampler : List ℚ → List (Option ℚ)) (shape : ℕ × ℕ)
    (img : RGB) : RGBA4 :=
  { r := (sampler img.r).map encodeCell,
    g := (sampler img.g).map encodeCell,
    b := (sampler img.b).map encodeCell,
    a := (List.replicate (shape.1 * shape.2) (some 1)).map encodeCell }

/-- Gregorian date from a count of days since 1970-01-01, for nonnegative day
counts.  This models the date part of datetime.utcfromtimestamp; the algorithm
follows the standard era decomposition, written with division and remainder
only. -/
def civilFromDays (days : ℕ) : ℕ × ℕ × ℕ :=
  let z := days + 719468
  let era := z / 146097
  let doe := z % 146097
  let yoe := (doe - doe / 1460 + doe / 36524 - doe / 146096) / 365
  let doy := doe - (365 * yoe + yoe / 4 - yoe / 100)
  let mp := (5 * doy + 2) / 153
  (yoe + era * 400 + mp / 10, (mp + 2) % 12 + 1, doy - (153 * mp + 2) / 5 + 1)

/-- Days since 1970-01-01 from a Gregorian date, the inverse direction used by
the filename decoder. -/
def daysFromCivil (y m d : ℕ) : ℕ :=
  let yAdj := y - (14 - m) / 12
  let era := yAdj / 400
  let yoe := yAdj % 400
  let doy := (153 * ((m + 9) % 12) + 2) / 5 + d - 1
  era * 146097 + (yoe * 365 + yoe / 4 - yoe / 100 + doy) - 719468

/-- The decimal digit character of d, for d at most 9. -/
def digitChar (d : ℕ) : Char := Char.ofNat (48 + d)

/-- The numeric value of a decimal digit character. -/
def charVal (c : Char) : ℕ := c.toNat - 48

/-- Two digit zero padded decimal, as the strftime fields %m %d %H %M %S
produce for values below 100. -/
def pad2 (n : ℕ) : List Char := [digitChar (n / 10 % 10), digitChar (n % 10)]

/-- Four digit zero padded decimal, as the strftime field %Y produces for years
below 10000. -/
def pad4 (n : ℕ) : List Char :=
  [digitChar (n / 1000 % 10), digitChar (n / 100 % 10),
   digitChar (n / 10 % 10), digitChar (n % 10)]

/-- The UTC timestamp string of make_img_filename: seconds since the epoch
rendered through strftime as %Y-%m-%dT%H:%M:%SZ. -/
def formatTimestampChars (secs : ℕ) : List Char :=
  pad4 (civilFromDays (secs / 86400)).1 ++
    '-' :: pad2 (civilFromDays (secs / 86400)).2.1 ++
    '-' :: pad2 (civilFromDays (secs / 86400)).2.2 ++
    'T' :: pad2 (secs % 86400 / 3600) ++
    ':' :: pad2 (secs % 86400 % 3600 / 60) ++
    ':' :: pad2 (secs % 60) ++ ['Z']

/-- Rounding of the timestamp to whole microseconds as utcfromtimestamp does,
written on nonnegative nanosecond counts: round half to even.  CPython turns
the float seconds into a microsecond count with rounding mode half even (the
pure Python path computes round(frac * 1e6) on the fractional second and
carries an overflowing microsecond count into the seconds), so a time within
half a microsecond below a second boundary belongs to the next second. -/
def roundHalfEvenMicro (t : ℕ) : ℕ :=
  if t % 1000 < 500 then t / 1000
  else if 500 < t % 1000 then t / 1000 + 1
  else if t / 1000 % 2 = 0 then t / 1000 else t / 1000 + 1

/-- The whole second count that utcfromtimestamp(t / 1e9) hands to strftime:
the microsecond rounded time, with its carry, cut down to seconds.  The
float64 representation error of t / 1e9, below a quarter microsecond for every
time before the year 10000, is idealised to exact division here; it can
influence the displayed second only for times within that distance of the half
microsecond rollover threshold. -/
def utcSeconds (t : ℕ) : ℕ := roundHalfEvenMicro t / 1000000

/-- make_img_filename, process_files.py lines 147 to 149: the acquisition time
t is a count of nanoseconds since the epoch; utcfromtimestamp(t / 1e9) rounds
it to whole microseconds half to even, carrying into the seconds, and strftime
then renders the whole seconds of the result. -/
def make_img_filename (platformID : String) (t : ℕ) : String :=
  "figs/" ++ platformID ++ "_" ++
    String.mk (formatTimestampChars (utcSeconds t)) ++ ".png"

/-- Decoder for the fixed width timestamp of the filename: the twenty
characters YYYY-MM-DDTHH:MM:SSZ, returned as seconds since the epoch. -/
def decodeTimestamp (l : List Char) : Option ℕ :=
  match l with
  | [y1, y2, y3, y4, _, m1, m2, _, d1, d2, _, h1, h2, _, i1, i2, _, s1, s2, _] =>
    some (daysFromCivil
        (((charVal y1 * 10 + charVal y2) * 10 + charVal y3) * 10 + charVal y4)
        (charVal m1 * 10 + charVal m2) (charVal d1 * 10 + charVal d2) * 86400 +
      (charVal h1 * 10 + charVal h2) * 3600 +
      (charVal i1 * 10 + charVal i2) * 60 + (charVal s1 * 10 + charVal s2))
  | _ => none

/-- Decoder for the character list of a filename
figs/PLATFORM_YYYY-MM-DDTHH:MM:SSZ.png: strip the five directory characters and
the four extension characters, split the platform id from the fixed width
timestamp, and return the timestamp as nanoseconds since the epoch. -/
def decodeImgChars (l : List Char) : Option (String × ℕ) :=
  let core := (l.drop 5).take ((l.drop 5).length - 4)
  if 21 ≤ core.length then
    match decodeTimestamp (core.drop (core.length - 20)) with
    | some secs =>
      some (String.mk (core.take (core.length - 21)), secs * 1000000000)
    | none => none
  else none

/-- Decoder for the full filename, working on its character list. -/
def decode_img_filename (s : String) : Option (String × ℕ) :=
  decodeImgChars s.toList

/-- Coordinate reference systems appearing in the corner transforms of the
pipeline. -/
inductive Crs
  | geos
  | webMercator
  | geodeticOf (c : Crs)
  deriving DecidableEq

/-- The pyproj transform signature as the pipeline calls it: source crs,
destination crs, x arguments, y arguments, and the always_xy flag, which pyproj
defaults to False when the keyword is omitted.  The transform itself is an
external library function and stays abstract. -/
def TransformFn : Type := Crs → Crs → List ℚ → List ℚ → Bool → List ℚ × List ℚ

/-- The corner transform of open_file, line 41: transform(crs.geodetic_crs,
crs, corners[:, 0], corners[:, 1]).  The first coordinate column holds
longitudes, the second latitudes; no always_xy keyword is passed. -/
def open_file_bnds (tf : TransformFn) (crs : Crs) (corners : List (ℚ × ℚ)) :
    List ℚ × List ℚ :=
  tf (Crs.geodeticOf crs) crs (corners.map Prod.fst) (corners.map Prod.snd) false

/-- The corner transform of make_resample_params, lines 113 to 115:
transform(ds.crs.geodetic_crs, WEB_MERCATOR, sorted(corners[:, 0]),
sorted(corners[:, 1])).  No always_xy keyword is passed. -/
def make_resample_pts (tf : TransformFn) (crs : Crs) (corners : List (ℚ × ℚ)) :
    List ℚ × List ℚ :=
  tf (Crs.geodeticOf crs) Crs.webMercator
    (List.insertionSort (· ≤ ·) (corners.map Prod.fst))
    (List.insertionSort (· ≤ ·) (corners.map Prod.snd)) false

/-- Python substring containment, needle in hay for strings: some contiguous
run of hay equals needle.  The empty needle is contained in every string. -/
def containsSub (needle hay : List Char) : Bool :=
  match hay with
  | [] => needle.isEmpty
  | c :: t => needle.isPrefixOf (c :: t) || containsSub needle t

/-- Modelled from the spec: the two bounding region presets G16_CORNERS and
G17_CORNERS are defined in constants.py, which is not among the sources; the
specification describes them as two distinct named geographic rectangles, east
and west coverage. -/
inductive CornersPreset
  | g16
  | g17
  deriving DecidableEq

/-- The corner selection of process_s3_file, lines 184 to 190: the corners used
to subset the Scene depend on whether the bucket name contains goes17, while
the corners defining the resample target extent are G17_CORNERS on every
path. -/
def process_s3_corners (bucket : String) : CornersPreset × CornersPreset :=
  (if containsSub "goes17".toList bucket.toList then CornersPreset.g17
    else CornersPreset.g16,
   CornersPreset.g17)

/-- A Python value usable on the right of the in operator in filter_func:
either a string, where in means substring containment, or a list of strings,
where in means membership, that is equality with some element. -/
inductive PyVal
  | str (s : String)
  | list (l : List String)
  deriving DecidableEq

/-- Python membership, x in v, as filter_func evaluates it. -/
def pyMem (x : String) (v : PyVal) : Bool :=
  match v with
  | PyVal.str s => containsSub x.toList s.toList
  | PyVal.list l => l.contains x

/-- Dictionary key lookup: the first binding of k in the item. -/
def lookupItem (item : List (String × String)) (k : String) : Option String :=
  match item with
  | [] => none
  | (k2, v) :: t => if k2 = k then some v else lookupItem t k

/-- filter_func, write_metadata.py lines 12 to 19: iterate over the filter
entries; a key missing from the item returns False, a value failing the in
test returns False, and the loop falling through returns True. -/
def filter_func (filters : List (String × PyVal))
    (item : List (String × String)) : Bool :=
  match filters with
  | [] => true
  | (k, v) :: rest =>
    match lookupItem item k with
    | none => false
    | some x => if pyMem x v then filter_func rest item else false

/-- A metadata entry of the sensor feed: the string valued fields seen by the
filter, among them Name and Type, plus the numeric coordinates fed to the
projection. -/
structure Site where
  fields : List (String × String)
  name : String
  lon : ℚ
  lat : ℚ
  deriving DecidableEq

/-- parse_metadata, write_metadata.py lines 22 to 33.  proj abstracts the
pyproj transform from geographic coordinates to Web Mercator.  The accumulator
out is a Python set and the loop body executes out.add of a freshly built dict;
a dict is unhashable, so set.add raises TypeError at the first site passing the
filter.  When no site passes, the loop body never runs and list(out) is the
empty list. -/
def parse_metadata (proj : ℚ → ℚ → ℚ × ℚ) (filters : List (String × PyVal))
    (metadata : List Site) : Except PyError (List (String × ℚ × ℚ)) :=
  match metadata.filter (fun s => filter_func filters s.fields) with
  | [] => Except.ok []
  | _ :: _ => Except.error PyError.typeError

/-! ### Helper lemmas -/

/-- A value clipped to the unit interval lies in the unit interval. -/
theorem npClip01_mem (x : ℚ) : 0 ≤ npClip 0 1 x ∧ npClip 0 1 x ≤ 1 :=
  ⟨le_min (by norm_num) (le_max_left 0 x), min_le_left 1 (max 0 x)⟩

/-- Clipping to the unit interval fixes values already inside it. -/
theorem npClip01_of_mem (x : ℚ) (h1 : 0 ≤ x) (h2 : x ≤ 1) : npClip 0 1 x = x := by
  unfold npClip
  rw [max_eq_right h1, min_eq_right h2]

/-- An invalid resampled cell encodes to 0. -/
theorem encodeCell_none : encodeCell none = 0 := by
  norm_num [encodeCell, fixInvalidFilled0, uint8OfRat, truncToward0]

/-- A constant alpha cell of value one encodes to 255. -/
theorem encodeCell_one : encodeCell (some 1) = 255 := by
  norm_num [encodeCell, fixInvalidFilled0, uint8OfRat, truncToward0]
  rfl

/-- Every element of a contrast stretched plane lies in the unit interval. -/
theorem mem_map_contrastStretch (l : List ℚ) :
    ∀ x ∈ l.map contrastStretch, 0 ≤ x ∧ x ≤ 1 := by
  intro x hx
  rcases List.mem_map.1 hx with ⟨y, _, rfl⟩
  exact npClip01_mem _

/-- Mapping a function over the result of zipWith3 composes into the
combining function. -/
theorem map_zipWith3 (h : ℚ → ℚ) (f : ℚ → ℚ → ℚ → ℚ) :
    ∀ l₁ l₂ l₃, (zipWith3 f l₁ l₂ l₃).map h =
      zipWith3 (fun a b c => h (f a b c)) l₁ l₂ l₃
  | a :: l₁, b :: l₂, c :: l₃ => by
    simp only [zipWith3, List.map_cons, map_zipWith3 h f l₁ l₂ l₃]
  | [], _, _ => by simp [zipWith3]
  | _ :: _, [], _ => by simp [zipWith3]
  | _ :: _, _ :: _, [] => by simp [zipWith3]

/-- zipWith3 over mapped arguments composes the maps into the combining
function. -/
theorem zipWith3_map_args (f : ℚ → ℚ → ℚ → ℚ) (g : ℚ → ℚ) :
    ∀ l₁ l₂ l₃, zipWith3 f (l₁.map g) (l₂.map g) (l₃.map g) =
      zipWith3 (fun a b c => f (g a) (g b) (g c)) l₁ l₂ l₃
  | a :: l₁, b :: l₂, c :: l₃ => by
    simp only [zipWith3, List.map_cons, zipWith3_map_args f g l₁ l₂ l₃]
  | [], _, _ => by simp [zipWith3]
  | _ :: _, [], _ => by simp [zipWith3]
  | _ :: _, _ :: _, [] => by simp [zipWith3]

/-- zipWith3 over three constant rasters is a constant raster. -/
theorem zipWith3_replicate (f : ℚ → ℚ → ℚ → ℚ) (a b c : ℚ) :
    ∀ n, zipWith3 f (List.replicate n a) (List.replicate n b)
      (List.replicate n c) = List.replicate n (f a b c)
  | 0 => rfl
  | n + 1 => by
    simp only [List.replicate_succ, zipWith3, zipWith3_replicate f a b c n]

/-! ### C1: the contrast stretch factor -/

/-- C1, counterexample.  The claim states that the final output at a composited
pixel value v equals clip(F (v - 0.5) + 0.5, 0, 1) with the factor
F = 259 (contrast + 255) / (255 (259 - contrast)) from the specification.  At
the composited pixel value 3/5 the stretch the code computes differs from the
stretch the specification states, because line 91 parenthesises the
denominator as 255.0 * 259 - CONTRAST.  The second conjunct exhibits 3/5 as an
actual composited pixel value of a concrete scene. -/
theorem c1_contrast_stretch_counterexample :
    contrastStretch (3 / 5) ≠ specContrastStretch (3 / 5) ∧
    (make_geocolor_image id (GeoDS.mk [0] [3 / 5] [0] [1] 0 1)).r =
      [contrastStretch (3 / 5)] := by
  refine ⟨?_, ?_⟩
  · have e1 : contrastStretch (3 / 5) = 1007 / 1570 := by
      norm_num [contrastStretch, contrastF, CONTRAST, npClip, min_def, max_def]
    have e2 : specContrastStretch (3 / 5) = 1379 / 1870 := by
      norm_num [specContrastStretch, specContrastF, CONTRAST, npClip, min_def, max_def]
    rw [e1, e2]
    norm_num
  · norm_num [make_geocolor_image, clip01, synthGreen, normalizeIR, zipWith3,
      npClip, min_def, max_def]

/-- C1, amended.  At the configured contrast constant 105 the factor the code
computes is 259 * (105 + 255) / (255 * 259 - 105) = 222 / 157, so the final
output at a composited pixel value v equals clip((222/157) (v - 0.5) + 0.5, 0, 1);
the factor the specification states evaluates to 444 / 187 instead. -/
theorem c1_contrast_stretch_amended (v : ℚ) :
    contrastStretch v = npClip 0 1 (222 / 157 * (v - 1 / 2) + 1 / 2) ∧
    contrastF = 222 / 157 ∧ specContrastF = 444 / 187 := by
  refine ⟨?_, by norm_num [contrastF, CONTRAST], by norm_num [specContrastF, CONTRAST]⟩
  unfold contrastStretch
  norm_num [contrastF, CONTRAST]

/-! ### C6: range invariant of the compositor -/

/-- C6.  For channel inputs in the unit interval (and a nondegenerate valid
range for the thermal channel, so that the float normalisation is defined),
every pixel of every plane of the composite returned by make_geocolor_image
lies in the unit interval, for every gamma function. -/
theorem c6_compositor_range (powGamma : ℚ → ℚ) (ds : GeoDS)
    (h01 : ∀ x ∈ ds.c01, 0 ≤ x ∧ x ≤ 1) (h02 : ∀ x ∈ ds.c02, 0 ≤ x ∧ x ≤ 1)
    (h03 : ∀ x ∈ ds.c03, 0 ≤ x ∧ x ≤ 1) (h13 : ∀ x ∈ ds.c13, 0 ≤ x ∧ x ≤ 1)
    (hir : ds.irLo < ds.irHi) :
    (∀ x ∈ (make_geocolor_image powGamma ds).r, 0 ≤ x ∧ x ≤ 1) ∧
    (∀ x ∈ (make_geocolor_image powGamma ds).g, 0 ≤ x ∧ x ≤ 1) ∧
    (∀ x ∈ (make_geocolor_image powGamma ds).b, 0 ≤ x ∧ x ≤ 1) := by
  refine ⟨?_, ?_, ?_⟩ <;>
    simp only [make_geocolor_image] <;>
    exact mem_map_contrastStretch _

/-- C6, witness at a concrete one pixel scene with the identity gamma. -/
theorem c6_compositor_range_witness :
    (∀ x ∈ (make_geocolor_image id (GeoDS.mk [0] [1] [0] [1] 0 1)).r,
      0 ≤ x ∧ x ≤ 1) ∧
    (∀ x ∈ (make_geocolor_image id (GeoDS.mk [0] [1] [0] [1] 0 1)).g,
      0 ≤ x ∧ x ≤ 1) ∧
    (∀ x ∈ (make_geocolor_image id (GeoDS.mk [0] [1] [0] [1] 0 1)).b,
      0 ≤ x ∧ x ≤ 1) :=
  c6_compositor_range id (GeoDS.mk [0] [1] [0] [1] 0 1)
    (by decide) (by decide) (by decide) (by decide) (by decide)

/-! ### C7: the synthesized green channel -/

/-- C7.  Over the clipped input channels, the synthesized green channel before
gamma correction equals clip(0.45 R + 0.10 NIR + 0.45 B, 0, 1) pixelwise, and
for uniform inputs R = 0.2, NIR = 0.3, B = 0.1 it is 0.165 everywhere. -/
theorem c7_synth_green :
    (∀ R NIR B : List ℚ,
      synthGreen (clip01 R) (clip01 NIR) (clip01 B) =
        zipWith3 (fun r n b =>
            npClip 0 1 (45 / 100 * npClip 0 1 r + 1 / 10 * npClip 0 1 n +
              45 / 100 * npClip 0 1 b)) R NIR B) ∧
    (∀ n : ℕ,
      synthGreen (clip01 (List.replicate n (1 / 5))) (clip01 (List.replicate n (3 / 10)))
        (clip01 (List.replicate n (1 / 10))) = List.replicate n (33 / 200)) := by
  constructor
  · intro R NIR B
    unfold synthGreen clip01
    rw [zipWith3_map_args, map_zipWith3]
  · intro n
    unfold synthGreen clip01
    rw [List.map_replicate, List.map_replicate, List.map_replicate,
      zipWith3_replicate, List.map_replicate]
    norm_num [npClip]

/-! ### C2: the resampled output raster -/

/-- C2, counterexample.  A resample plan without any contributing source point
(the sampler returns an invalid cell everywhere) does not produce an all zero
output raster: the alpha plane is np.ones(shape), which contains no invalid
value, so it encodes to 255 everywhere, and in particular the non contributing
cell is not fully transparent. -/
theorem c2_resample_counterexample :
    resample_image (fun _ => [none]) (1, 1) (RGB.mk [1 / 2] [1 / 2] [1 / 2]) =
      RGBA4.mk [0] [0] [0] [255] ∧
    RGBA4.mk [0] [0] [0] [255] ≠ RGBA4.mk [0] [0] [0] [0] := by
  constructor
  · simp [resample_image, encodeCell_none, encodeCell_one]
  · decide

/-- C2, amended.  The output raster has one cell per target grid point in each
of its four planes; the fourth plane is the constant 255 (alpha one)
everywhere, not only at contributing cells; every invalid cell of the three
colour planes encodes to 0; and a plan with no contributing source point
yields zero colour planes together with a full opacity alpha plane. -/
theorem c2_resample_alpha_amended (sampler : List ℚ → List (Option ℚ))
    (shape : ℕ × ℕ) (img : RGB)
    (hlen : ∀ ch, (sampler ch).length = shape.1 * shape.2) :
    (resample_image sampler shape img).a = List.replicate (shape.1 * shape.2) 255 ∧
    (resample_image sampler shape img).r.length = shape.1 * shape.2 ∧
    (resample_image sampler shape img).g.length = shape.1 * shape.2 ∧
    (resample_image sampler shape img).b.length = shape.1 * shape.2 ∧
    (∀ i : ℕ, (sampler img.r)[i]? = some none →
      ((resample_image sampler shape img).r)[i]? = some 0) ∧
    (∀ i : ℕ, (sampler img.g)[i]? = some none →
      ((resample_image sampler shape img).g)[i]? = some 0) ∧
    (∀ i : ℕ, (sampler img.b)[i]? = some none →
      ((resample_image sampler shape img).b)[i]? = some 0) ∧
    ((∀ ch, sampler ch = List.replicate (shape.1 * shape.2) none) →
      resample_image sampler shape img =
        RGBA4.mk (List.replicate (shape.1 * shape.2) 0)
          (List.replicate (shape.1 * shape.2) 0)
          (List.replicate (shape.1 * shape.2) 0)
          (List.replicate (shape.1 * shape.2) 255)) := by
  refine ⟨?_, ?_, ?_, ?_, ?_, ?_, ?_, ?_⟩
  · simp [resample_image, List.map_replicate, encodeCell_one]
  · simp [resample_image, hlen]
  · simp [resample_image, hlen]
  · simp [resample_image, hlen]
  · intro i hi
    simp [resample_image, List.getElem?_map, hi, encodeCell_none]
  · intro i hi
    simp [resample_image, List.getElem?_map, hi, encodeCell_none]
  · intro i hi
    simp [resample_image, List.getElem?_map, hi, encodeCell_none]
  · intro hall
    simp [resample_image, hall, List.map_replicate, encodeCell_none, encodeCell_one]

/-- C2, witness at the one cell plan with no contributing source point. -/
theorem c2_resample_alpha_witness :
    (resample_image (fun _ => [none]) (1, 1) (RGB.mk [1] [1] [1])).a =
      List.replicate (1 * 1) 255 :=
  (c2_resample_alpha_amended (fun _ => [none]) (1, 1) (RGB.mk [1] [1] [1])
    (fun _ => rfl)).1

/-! ### C3: empty spatial intersection -/

/-- C3, counterexample.  For a scene whose coordinates all lie outside the
bounding box, open_file returns the empty selection without raising anything,
and the pipeline then fails inside make_resample_params with a ValueError from
the numpy reduction over the empty axis, which is not a DataError; no DataError
exists in the code. -/
theorem c3_empty_selection_counterexample :
    open_file_subset [0, 1, 2] [0, 1, 2] [10, 11] [10, 11] = ([], []) ∧
    process_scene_subset [0, 1, 2] [0, 1, 2] [10, 11] [10, 11] =
      Except.error PyError.valueError ∧
    PyError.valueError ≠ PyError.dataError := by
  exact ⟨rfl, rfl, by decide⟩

/-- C3, amended.  An empty selection on either axis is silently returned by
open_file; the scene later aborts with a generic numpy ValueError when
make_resample_params reduces min and max over the zero size axis, so no output
image is written, but no DataError is raised. -/
theorem c3_empty_selection_amended (xs ys bndx bndy : List ℚ)
    (h : (open_file_subset xs ys bndx bndy).1 = [] ∨
      (open_file_subset xs ys bndx bndy).2 = []) :
    process_scene_subset xs ys bndx bndy = Except.error PyError.valueError := by
  unfold process_scene_subset
  rcases h with h | h
  · rw [h]
    rfl
  · rcases hfst : (open_file_subset xs ys bndx bndy).1 with _ | ⟨a, l⟩
    · rfl
    · rw [h]
      rfl

/-- C3, witness at a concrete disjoint scene and bounding box. -/
theorem c3_empty_selection_witness :
    process_scene_subset [0, 1] [5] [10, 11] [10, 11] =
      Except.error PyError.valueError :=
  c3_empty_selection_amended [0, 1] [5] [10, 11] [10, 11] (Or.inl rfl)

/-! ### C4: parse_metadata adds a dict to a set -/

/-- C4.  At the failing input, a feed with one entry of Type ghi and the filter
allowing exactly that type, parse_metadata raises TypeError, because the
accumulator is a Python set and the loop adds an unhashable dict to it; it does
not return the converted record.  With no matching entry it returns the empty
list instead of raising, so the crash is reached exactly when the claimed
conversion would have to produce output. -/
theorem c4_parse_metadata_typeerror :
    parse_metadata (fun a b => (a, b)) [("Type", PyVal.list ["ghi"])]
        [Site.mk [("Name", "a"), ("Type", "ghi")] "a" (-110) 32] =
      Except.error PyError.typeError ∧
    parse_metadata (fun a b => (a, b)) [("Type", PyVal.list ["ghi"])]
        [Site.mk [("Name", "b"), ("Type", "wind")] "b" (-110) 32] =
      Except.ok [] := by
  exact ⟨rfl, rfl⟩

/-! ### C8: fixed resample target corners -/

/-- C8.  For every bucket whose name does not contain goes17, the corners used
to subset the scene are the G16 preset, while the corners defining the resample
target extent are the G17 preset; the second component is the G17 preset for
every bucket whatsoever. -/
theorem c8_fixed_resample_target (bucket : String)
    (h : containsSub "goes17".toList bucket.toList = false) :
    process_s3_corners bucket = (CornersPreset.g16, CornersPreset.g17) ∧
    ∀ b2 : String, (process_s3_corners b2).2 = CornersPreset.g17 := by
  constructor
  · unfold process_s3_corners
    rw [h]
    simp
  · intro b2
    rfl

/-- C8, witness at the GOES 16 bucket name. -/
theorem c8_fixed_resample_target_witness :
    process_s3_corners "noaa-goes16" = (CornersPreset.g16, CornersPreset.g17) :=
  (c8_fixed_resample_target "noaa-goes16" (by decide)).1

/-! ### C9: axis order semantics of the corner transforms -/

/-- C9, counterexample.  The corner transforms of open_file and
make_resample_params do not use always_xy semantics: a transform implementation
that behaves differently under the two flag values distinguishes the call the
code makes from the always_xy call the claim asserts, because the code omits
the keyword and pyproj then defaults it to False. -/
theorem c9_transform_axis_order_counterexample :
    ¬ ∀ (tf : TransformFn) (crs : Crs) (corners : List (ℚ × ℚ)),
        open_file_bnds tf crs corners =
          tf (Crs.geodeticOf crs) crs (corners.map Prod.fst)
            (corners.map Prod.snd) true := by
  intro hclaim
  have h2 := hclaim (fun _ _ _ _ axy => if axy then ([1], [1]) else ([0], [0]))
    Crs.geos [(-120, 30)]
  have h3 : (([0], [0]) : List ℚ × List ℚ) = ([1], [1]) := h2
  exact absurd h3 (by decide)

/-- C9, amended.  Both corner transforms pass the longitude column as the x
arguments and the latitude column as the y arguments (make_resample_params
sorting each column first), but invoke the transform with always_xy False, the
pyproj default for an omitted keyword: their result depends only on the
always_xy False behaviour of the transform. -/
theorem c9_transform_axis_order_amended (tf tf2 : TransformFn) (crs : Crs)
    (corners : List (ℚ × ℚ))
    (h : ∀ src dst axs ays, tf src dst axs ays false = tf2 src dst axs ays false) :
    open_file_bnds tf crs corners =
      tf (Crs.geodeticOf crs) crs (corners.map Prod.fst)
        (corners.map Prod.snd) false ∧
    make_resample_pts tf crs corners =
      tf (Crs.geodeticOf crs) Crs.webMercator
        (List.insertionSort (· ≤ ·) (corners.map Prod.fst))
        (List.insertionSort (· ≤ ·) (corners.map Prod.snd)) false ∧
    open_file_bnds tf crs corners = open_file_bnds tf2 crs corners ∧
    make_resample_pts tf crs corners = make_resample_pts tf2 crs corners :=
  ⟨rfl, rfl, h _ _ _ _, h _ _ _ _⟩

/-- C9, witness at a transform pair agreeing on the always_xy False branch. -/
theorem c9_transform_axis_order_witness :
    open_file_bnds (fun _ _ _ _ axy => if axy then ([1], [1]) else ([0], [0]))
        Crs.geos [(-120, 30)] =
      open_file_bnds (fun _ _ _ _ _ => ([0], [0])) Crs.geos [(-120, 30)] :=
  (c9_transform_axis_order_amended
    (fun _ _ _ _ axy => if axy then ([1], [1]) else ([0], [0]))
    (fun _ _ _ _ _ => ([0], [0])) Crs.geos [(-120, 30)]
    (fun _ _ _ _ => rfl)).2.2.1

/-! ### C10: filter_func semantics -/

/-- Evaluation of filter_func on a single string valued filter entry whose key
the item binds: the result is exactly the substring test. -/
theorem filter_func_single_str (k s : String) (item : List (String × String))
    (v : String) (hl : lookupItem item k = some v) :
    filter_func [(k, PyVal.str s)] item = containsSub v.toList s.toList := by
  unfold filter_func
  rw [hl]
  show (if containsSub v.toList s.toList = true then filter_func [] item
    else false) = _
  cases hc : containsSub v.toList s.toList with
  | true => simp [filter_func]
  | false => simp

/-- C10.  filter_func returns False whenever some filter key is absent from the
item; it returns True on every item when the filter mapping is empty; for a
string valued filter entry it accepts exactly the items whose value is a
substring of the filter string; and concretely the filter string ghi accepts
the value g, which is not equal to ghi. -/
theorem c10_filter_func_semantics :
    (∀ (filters : List (String × PyVal)) (item : List (String × String)),
      (∃ p ∈ filters, lookupItem item p.1 = none) →
        filter_func filters item = false) ∧
    (∀ item : List (String × String), filter_func [] item = true) ∧
    (∀ (k s : String) (item : List (String × String)) (v : String),
      lookupItem item k = some v →
      (filter_func [(k, PyVal.str s)] item = true ↔
        containsSub v.toList s.toList = true)) ∧
    filter_func [("Type", PyVal.str "ghi")] [("Type", "g")] = true ∧
    ("g" : String) ≠ "ghi" := by
  refine ⟨?_, fun _ => rfl, ?_, by decide, by decide⟩
  · intro filters item
    induction filters with
    | nil =>
      rintro ⟨p, hp, -⟩
      exact absurd hp (List.not_mem_nil p)
    | cons hd tl ih =>
      rintro ⟨p, hp, hnone⟩
      rcases hd with ⟨k, v⟩
      rcases List.mem_cons.1 hp with rfl | hmem
      · simp [filter_func, hnone]
      · cases hl : lookupItem item k with
        | none => simp [filter_func, hl]
        | some x =>
          by_cases hm : pyMem x v
          · have hrec := ih ⟨p, hmem, hnone⟩
            simp [filter_func, hl, hm, hrec]
          · simp [filter_func, hl, hm]
  · intro k s item v hl
    rw [filter_func_single_str k s item v hl]

/-- C10, witness at a missing key and at a proper substring match. -/
theorem c10_filter_func_witness :
    filter_func [("Type", PyVal.str "ghi")] [("Name", "x")] = false ∧
    (filter_func [("Type", PyVal.str "ghi")] [("Type", "hi")] = true ↔
      containsSub "hi".toList "ghi".toList = true) :=
  ⟨c10_filter_func_semantics.1 [("Type", PyVal.str "ghi")] [("Name", "x")]
      ⟨("Type", PyVal.str "ghi"), List.mem_singleton.mpr rfl, rfl⟩,
    c10_filter_func_semantics.2.2.1 "Type" "ghi" [("Type", "hi")] "hi" rfl⟩

/-! ### C5: the filename round trip -/

set_option maxHeartbeats 4000000 in
/-- Core bounds for the year of era computation of civilFromDays: the day
count it attributes to the years before the computed year of era never exceeds
the day of era, leaves at most 365 days inside the year, and the year of era
stays below 400. -/
theorem civil_yoe_bounds (doe : ℕ) (h : doe ≤ 146096) :
    365 * ((doe - doe / 1460 + doe / 36524 - doe / 146096) / 365) +
      ((doe - doe / 1460 + doe / 36524 - doe / 146096) / 365) / 4 -
      ((doe - doe / 1460 + doe / 36524 - doe / 146096) / 365) / 100 ≤ doe ∧
    doe - (365 * ((doe - doe / 1460 + doe / 36524 - doe / 146096) / 365) +
      ((doe - doe / 1460 + doe / 36524 - doe / 146096) / 365) / 4 -
      ((doe - doe / 1460 + doe / 36524 - doe / 146096) / 365) / 100) ≤ 365 ∧
    (doe - doe / 1460 + doe / 36524 - doe / 146096) / 365 ≤ 399 := by
  have hg : doe / 1460 ≤ 100 := by omega
  set g := doe / 1460 with hgdef
  interval_cases g <;>
    first
    | omega
    | (have he : doe / 36524 ≤ 4 := by omega
       set e := doe / 36524 with hedef
       interval_cases e <;> omega)

set_option maxHeartbeats 1000000 in
/-- Reconstruction step: daysFromCivil inverts the year, month and day
expressions produced by civilFromDays, for an arbitrary era, year of era below
400 and day of year at most 365. -/
theorem daysFromCivil_step (era yoe doy : ℕ) (hyoe : yoe ≤ 399)
    (hdoy : doy ≤ 365) :
    daysFromCivil (yoe + era * 400 + (5 * doy + 2) / 153 / 10)
      (((5 * doy + 2) / 153 + 2) % 12 + 1)
      (doy - (153 * ((5 * doy + 2) / 153) + 2) / 5 + 1) =
    era * 146097 + (365 * yoe + yoe / 4 - yoe / 100 + doy) - 719468 := by
  obtain ⟨mp, hmpdef⟩ : ∃ mp, (5 * doy + 2) / 153 = mp := ⟨_, rfl⟩
  have hmp11 : mp ≤ 11 := by omega
  have hd5 : (153 * mp + 2) / 5 ≤ doy := by omega
  have hfa : mp / 10 = (14 - ((mp + 2) % 12 + 1)) / 12 := by
    interval_cases mp <;> rfl
  have hmback : (((mp + 2) % 12 + 1) + 9) % 12 = mp := by
    interval_cases mp <;> rfl
  rw [hmpdef]
  simp only [daysFromCivil]
  have hyAdj : yoe + era * 400 + mp / 10 - (14 - ((mp + 2) % 12 + 1)) / 12 =
      yoe + era * 400 := by omega
  rw [hyAdj]
  have hera : (yoe + era * 400) / 400 = era := by omega
  have hyoe2 : (yoe + era * 400) % 400 = yoe := by omega
  rw [hera, hyoe2, hmback]
  omega

set_option maxHeartbeats 1000000 in
/-- The date conversion round trip: daysFromCivil inverts civilFromDays. -/
theorem civil_roundtrip (days : ℕ) :
    daysFromCivil (civilFromDays days).1 (civilFromDays days).2.1
      (civilFromDays days).2.2 = days := by
  have h3 := civil_yoe_bounds ((days + 719468) % 146097) (by omega)
  simp only [civilFromDays]
  rw [daysFromCivil_step]
  · omega
  · exact h3.2.2
  · omega

set_option maxHeartbeats 1000000 in
/-- Component bounds of the computed date, for day counts up to the year
9999. -/
theorem civilFromDays_bounds (days : ℕ) (h : days ≤ 2932896) :
    (civilFromDays days).1 ≤ 9999 ∧
    1 ≤ (civilFromDays days).2.1 ∧ (civilFromDays days).2.1 ≤ 12 ∧
    1 ≤ (civilFromDays days).2.2 ∧ (civilFromDays days).2.2 ≤ 31 := by
  have h3 := civil_yoe_bounds ((days + 719468) % 146097) (by omega)
  simp only [civilFromDays]
  omega

/-- Reading a decimal digit character back gives the digit. -/
theorem charVal_digitChar (d : ℕ) (h : d < 10) : charVal (digitChar d) = d := by
  interval_cases d <;> decide

/-- The rendered timestamp always has exactly twenty characters. -/
theorem formatTimestampChars_length (secs : ℕ) :
    (formatTimestampChars secs).length = 20 := by
  simp [formatTimestampChars, pad4, pad2]

/-- Decoding the rendered timestamp recovers the encoded seconds, for every
second count up to the year 9999. -/
theorem decodeTimestamp_format (secs : ℕ) (h : secs ≤ 253402300799) :
    decodeTimestamp (formatTimestampChars secs) = some secs := by
  have hb := civilFromDays_bounds (secs / 86400) (by omega)
  have hr := civil_roundtrip (secs / 86400)
  rcases hc : civilFromDays (secs / 86400) with ⟨y, m, d⟩
  rw [hc] at hb hr
  dsimp only at hb hr
  unfold formatTimestampChars
  rw [hc]
  dsimp only
  simp only [pad4, pad2, List.cons_append, List.nil_append]
  unfold decodeTimestamp
  have hcv : ∀ n : ℕ, charVal (digitChar (n % 10)) = n % 10 := fun n =>
    charVal_digitChar _ (Nat.mod_lt _ (by norm_num))
  simp only [hcv]
  have hY : ((y / 1000 % 10 * 10 + y / 100 % 10) * 10 + y / 10 % 10) * 10 + y % 10
      = y := by omega
  have hM : m / 10 % 10 * 10 + m % 10 = m := by omega
  have hD : d / 10 % 10 * 10 + d % 10 = d := by omega
  rw [hY, hM, hD, hr]
  simp only [Option.some.injEq]
  omega

/-- Decoding the assembled filename character list splits it back into the
platform characters and the encoded timestamp. -/
theorem decodeImgChars_append (pl ts : List Char) (secs : ℕ)
    (hlen : ts.length = 20) (hdec : decodeTimestamp ts = some secs) :
    decodeImgChars ("figs/".toList ++ (pl ++ '_' :: (ts ++ ".png".toList))) =
      some (String.mk pl, secs * 1000000000) := by
  simp only [decodeImgChars]
  have h1 : ("figs/".toList ++ (pl ++ '_' :: (ts ++ ".png".toList))).drop 5 =
      pl ++ '_' :: (ts ++ ".png".toList) := List.drop_left' rfl
  rw [h1]
  have hR : (pl ++ '_' :: (ts ++ ".png".toList)).length = pl.length + 25 := by
    simp [hlen]
  rw [hR]
  have hsplit : pl ++ '_' :: (ts ++ ".png".toList) =
      (pl ++ '_' :: ts) ++ ".png".toList := by
    simp
  have htake : (pl ++ '_' :: (ts ++ ".png".toList)).take (pl.length + 25 - 4) =
      pl ++ '_' :: ts := by
    rw [hsplit]
    exact List.take_left' (by simp [hlen])
  rw [htake]
  have hclen : (pl ++ '_' :: ts).length = pl.length + 21 := by simp [hlen]
  rw [hclen]
  rw [if_pos (by omega)]
  have hdrop : (pl ++ '_' :: ts).drop (pl.length + 21 - 20) = ts := by
    have hassoc : pl ++ '_' :: ts = (pl ++ ['_']) ++ ts := by simp
    rw [hassoc]
    exact List.drop_left' (by simp)
  rw [hdrop, hdec]
  have htake2 : (pl ++ '_' :: ts).take (pl.length + 21 - 21) = pl := by
    have h21 : pl.length + 21 - 21 = pl.length := by omega
    rw [h21]
    exact List.take_left' rfl
  rw [htake2]

/-- Closed form of the half even microsecond rounding: the carry is one
exactly when the sub microsecond remainder exceeds 500 nanoseconds, or equals
500 nanoseconds with an odd microsecond count. -/
theorem roundHalfEvenMicro_eq (t : ℕ) :
    roundHalfEvenMicro t = t / 1000 + (2 * (t % 1000) + t / 1000 % 2) / 1001 := by
  unfold roundHalfEvenMicro
  split_ifs <;> omega

/-- C5, counterexample.  The filename keeps only whole seconds of the
acquisition time: the distinct nanosecond counts 0 and 500000000 produce the
same filename, so no decoder recovers the exact nanoseconds since epoch scalar
that was encoded.  The last two conjuncts show the boundary behaviour: the
count 999999999 rounds into the next second, colliding with 1000000000, so the
second shown is the microsecond rounded value rather than a truncation. -/
theorem c5_filename_counterexample :
    make_img_filename "G17" 0 = make_img_filename "G17" 500000000 ∧
    (0 : ℕ) ≠ 500000000 ∧
    make_img_filename "G17" 999999999 = make_img_filename "G17" 1000000000 ∧
    utcSeconds 999999999 = 1 := by
  exact ⟨rfl, by decide, rfl, rfl⟩

/-- C5, amended.  make_img_filename is deterministic in platform and time and
follows the pattern figs/PLATFORM_YYYY-MM-DDTHH:MM:SSZ.png; decoding the
filename recovers the exact platform id, but only the acquisition timestamp
reduced to the whole second that the microsecond rounding of utcfromtimestamp
assigns to it, for every time up to the year 9999. -/
theorem c5_filename_roundtrip_amended (p : String) (t : ℕ)
    (h : t ≤ 253402300799 * 1000000000) :
    decode_img_filename (make_img_filename p t) =
      some (p, utcSeconds t * 1000000000) := by
  obtain ⟨ts, hts⟩ : ∃ l, formatTimestampChars (utcSeconds t) = l := ⟨_, rfl⟩
  have hlen : ts.length = 20 := by
    rw [← hts]
    exact formatTimestampChars_length _
  have hsec : utcSeconds t ≤ 253402300799 := by
    unfold utcSeconds
    rw [roundHalfEvenMicro_eq]
    omega
  have hdec : decodeTimestamp ts = some (utcSeconds t) := by
    rw [← hts]
    exact decodeTimestamp_format _ hsec
  unfold make_img_filename decode_img_filename
  rw [hts]
  have hsplit : ("figs/" ++ p ++ "_" ++ String.mk ts ++ ".png").toList =
      "figs/".toList ++ (p.toList ++ '_' :: (ts ++ ".png".toList)) := by
    show ("figs/" ++ p ++ "_" ++ String.mk ts ++ ".png").data = _
    simp [String.data_append]
  rw [hsplit]
  have happ := decodeImgChars_append p.toList ts (utcSeconds t) hlen hdec
  rw [happ]
  rfl

/-- C5, witness at a concrete platform and nanosecond time. -/
theorem c5_filename_roundtrip_witness :
    decode_img_filename (make_img_filename "G16" 1565034020123456789) =
      some ("G16", 1565034020000000000) :=
  c5_filename_roundtrip_amended "G16" 1565034020123456789 (by decide)

end GoesViewer
